import Mathlib

/-!
Verification of the porkbun DNS client (src/porkbun.py, src/certbot_auth.py).

The Python source is shallowly embedded: pure string manipulation becomes
Lean functions on `String`/`List Char`; Python dicts (whose insertion order
is observable in the serialized JSON) become association lists
`List (String × String)`; the network is an explicit environment `Env`
supplying the response of each endpoint, and every API-issuing operation
returns the list of calls it made together with an `Except` result
(`_err` raising `SystemExit` is modelled as `Except.error`).
-/

/- Python `str.lower` / `str.upper` on the ASCII strings this program
   handles (domain names, record types): case-map each character. -/
def pyLowerChar (ch : Char) : Char :=
  if 'A' ≤ ch ∧ ch ≤ 'Z' then Char.ofNat (ch.toNat + 32) else ch

def pyUpperChar (ch : Char) : Char :=
  if 'a' ≤ ch ∧ ch ≤ 'z' then Char.ofNat (ch.toNat - 32) else ch

def pyLower (s : String) : String := ⟨s.data.map pyLowerChar⟩

def pyUpper (s : String) : String := ⟨s.data.map pyUpperChar⟩

/- Python `str.strip(c)`: remove every leading and trailing occurrence
   of the character `c`. -/
def pyStrip (s : String) (c : Char) : String :=
  ⟨((s.data.dropWhile (fun x => x == c)).reverse.dropWhile (fun x => x == c)).reverse⟩

/- `_get_fqdn(subdomain, domain)` from src/porkbun.py:
   `return f'{subdomain.lower()}.{domain}'.strip('.')` — note that only
   the subdomain is lowercased; the domain is interpolated verbatim. -/
def get_fqdn (subdomain : String) (domain : String) : String :=
  pyStrip (pyLower subdomain ++ "." ++ domain) '.'

theorem dropWhile_eq_self_of_head (p : Char → Bool) (l : List Char)
    (h : ∀ a, l.head? = some a → p a = false) : l.dropWhile p = l := by
  cases l with
  | nil => rfl
  | cons a l =>
    have ha := h a rfl
    simp [List.dropWhile_cons, ha]

theorem pyStrip_eq_self (s : String) (c : Char)
    (h1 : s.data.head? ≠ some c) (h2 : s.data.getLast? ≠ some c) :
    pyStrip s c = s := by
  unfold pyStrip
  have e1 : s.data.dropWhile (fun x => x == c) = s.data := by
    refine dropWhile_eq_self_of_head _ _ (fun a ha => ?_)
    have : a ≠ c := by intro hcon; exact h1 (hcon ▸ ha)
    simp [this]
  rw [e1]
  have e2 : s.data.reverse.dropWhile (fun x => x == c) = s.data.reverse := by
    refine dropWhile_eq_self_of_head _ _ (fun a ha => ?_)
    rw [List.head?_reverse] at ha
    have : a ≠ c := by intro hcon; exact h2 (hcon ▸ ha)
    simp [this]
  rw [e2, List.reverse_reverse]

/-- C2 (amended): FQDN derivation lowercases only the subdomain (the
domain's case is preserved) and joins them with a dot, stripping leading
and trailing dots, so the empty label collapses for an empty subdomain:
for every domain that neither starts nor ends with a dot,
`get_fqdn "" dom = dom`; `get_fqdn "" "example.com" = "example.com"`;
and `get_fqdn "www" "Example.com" = "www.Example.com"`. -/
theorem get_fqdn_characterization (dom : String)
    (h1 : dom.data.head? ≠ some '.') (h2 : dom.data.getLast? ≠ some '.') :
    get_fqdn "" dom = dom ∧
    get_fqdn "" "example.com" = "example.com" ∧
    get_fqdn "www" "Example.com" = "www.Example.com" := by
  refine ⟨?_, by decide, by decide⟩
  unfold get_fqdn
  have hdot : pyLower "" ++ "." = "." := by decide
  rw [hdot]
  have hdata : ("." ++ dom).data = '.' :: dom.data := rfl
  unfold pyStrip
  rw [hdata]
  have e1 : ('.' :: dom.data).dropWhile (fun x => x == '.') =
      dom.data.dropWhile (fun x => x == '.') := by
    simp [List.dropWhile_cons]
  rw [e1]
  have e2 : dom.data.dropWhile (fun x => x == '.') = dom.data := by
    refine dropWhile_eq_self_of_head _ _ (fun a ha => ?_)
    have : a ≠ '.' := by intro hcon; exact h1 (hcon ▸ ha)
    simp [this]
  rw [e2]
  have e3 : dom.data.reverse.dropWhile (fun x => x == '.') = dom.data.reverse := by
    refine dropWhile_eq_self_of_head _ _ (fun a ha => ?_)
    rw [List.head?_reverse] at ha
    have : a ≠ '.' := by intro hcon; exact h2 (hcon ▸ ha)
    simp [this]
  rw [e3, List.reverse_reverse]

/-- C2 witness: the amended characterization applied to the concrete
domain of the spec's first example. -/
theorem get_fqdn_characterization_witness :
    get_fqdn "" "example.com" = "example.com" :=
  (get_fqdn_characterization "example.com" (by decide) (by decide)).1

/-- C2 counterexample: the claim as stated is false — the derivation does
not case-fold the domain, so `fqdn("www", "Example.com")` is
`"www.Example.com"`, not the claimed `"www.example.com"`. -/
theorem get_fqdn_domain_not_lowercased :
    get_fqdn "www" "Example.com" ≠ "www.example.com" := by decide

/- Python dicts whose contents reach the serialized JSON are modelled as
   association lists in insertion order, with unique keys in all inputs
   the program builds. -/

def hasKey (d : List (String × String)) (k : String) : Bool :=
  d.any (fun kv => kv.1 == k)

def dictLookup (d : List (String × String)) (k : String) : Option String :=
  (d.find? (fun kv => kv.1 == k)).map (fun kv => kv.2)

/- Python `d.update(u)`: keys already present are overwritten in place
   (keeping their position), new keys are appended in `u`'s order. -/
def dictUpdate (d : List (String × String)) (u : List (String × String)) :
    List (String × String) :=
  (d.map (fun kv =>
    match u.find? (fun uv => uv.1 == kv.1) with
    | some uv => (kv.1, uv.2)
    | none => kv)) ++
  u.filter (fun uv => !(hasKey d uv.1))

def DEF_ENDPOINT : String := "https://api-ipv4.porkbun.com/api/json/v3"

/- `Porkbun.__authenticate_data` from src/porkbun.py: build the dict of the
   three authentication fields from the constructor-held credentials, drop
   every payload entry whose key collides with one of them, and `update`
   the authentication dict with the remainder. -/
def authenticate_data (endpoint : String) (api_key : String)
    (secret_api_key : String) (data : List (String × String)) :
    List (String × String) :=
  let authenticated_data : List (String × String) :=
    [("endpoint", endpoint), ("apikey", api_key), ("secretapikey", secret_api_key)]
  let filtered_data := data.filter (fun kv => !(hasKey authenticated_data kv.1))
  dictUpdate authenticated_data filtered_data

theorem find?_filter_of_imp {α : Type} (l : List α) (p q : α → Bool)
    (h : ∀ x, q x = true → p x = true) : (l.filter p).find? q = l.find? q := by
  induction l with
  | nil => rfl
  | cons a l ih =>
    by_cases hpa : p a = true
    · rw [List.filter_cons_of_pos hpa]
      by_cases hqa : q a = true
      · rw [List.find?_cons_of_pos _ hqa, List.find?_cons_of_pos _ hqa]
      · rw [List.find?_cons_of_neg _ (by simp_all), List.find?_cons_of_neg _ (by simp_all), ih]
    · have hqa : ¬ q a = true := fun hq => hpa (h a hq)
      rw [List.filter_cons_of_neg (by simp_all), List.find?_cons_of_neg _ (by simp_all), ih]

theorem any_filter_of_imp {α : Type} (l : List α) (p q : α → Bool)
    (h : ∀ x, q x = true → p x = true) : (l.filter p).any q = l.any q := by
  induction l with
  | nil => rfl
  | cons a l ih =>
    by_cases hpa : p a = true
    · rw [List.filter_cons_of_pos hpa, List.any_cons, List.any_cons, ih]
    · have hqa : ¬ q a = true := fun hq => hpa (h a hq)
      rw [List.filter_cons_of_neg (by simp_all), List.any_cons, ih]
      simp_all

theorem dictUpdate_of_disjoint (d u : List (String × String))
    (h : ∀ kv ∈ u, hasKey d kv.1 = false) : dictUpdate d u = d ++ u := by
  unfold dictUpdate
  have hnone : ∀ kv ∈ d, u.find? (fun uv => uv.1 == kv.1) = none := by
    intro kv hkv
    apply List.find?_eq_none.mpr
    intro uv huv hcon
    have heq : uv.1 = kv.1 := by simpa using hcon
    have hmem : hasKey d uv.1 = true := by
      unfold hasKey
      exact List.any_eq_true.mpr ⟨kv, hkv, by simp [heq]⟩
    rw [h uv huv] at hmem
    exact Bool.false_ne_true hmem
  have e1 : (d.map (fun kv =>
      match u.find? (fun uv => uv.1 == kv.1) with
      | some uv => (kv.1, uv.2)
      | none => kv)) = d := by
    have hcg : (d.map (fun kv =>
        match u.find? (fun uv => uv.1 == kv.1) with
        | some uv => (kv.1, uv.2)
        | none => kv)) = d.map (fun kv => kv) :=
      List.map_congr_left (fun kv hkv => by rw [hnone kv hkv])
    rw [hcg, List.map_id']
  have e2 : u.filter (fun uv => !(hasKey d uv.1)) = u := by
    apply List.filter_eq_self.mpr
    intro uv huv
    simp [h uv huv]
  rw [e1, e2]

theorem authenticate_data_eq_append (e a s : String) (d : List (String × String)) :
    authenticate_data e a s d =
      [("endpoint", e), ("apikey", a), ("secretapikey", s)] ++
      d.filter (fun kv =>
        !(hasKey [("endpoint", e), ("apikey", a), ("secretapikey", s)] kv.1)) := by
  unfold authenticate_data
  apply dictUpdate_of_disjoint
  intro kv hkv
  have hmem := List.mem_filter.mp hkv
  simpa using hmem.2

theorem any_filter_eq_false {α : Type} (l : List α) (p q : α → Bool)
    (h : l.any q = false) : (l.filter p).any q = false := by
  rw [List.any_eq_false] at h ⊢
  intro x hx
  exact h x (List.mem_filter.mp hx).1

/-- C6: the transport's authentication merge favors the configured
identity — in the merged outbound payload the keys `apikey`,
`secretapikey` and `endpoint` map to the constructor-provided values
whatever the caller's payload supplied for them, while every other
payload key keeps its caller-supplied value. -/
theorem authenticate_merge_precedence (e a s : String) (data : List (String × String)) :
    dictLookup (authenticate_data e a s data) "endpoint" = some e ∧
    dictLookup (authenticate_data e a s data) "apikey" = some a ∧
    dictLookup (authenticate_data e a s data) "secretapikey" = some s ∧
    ∀ k : String, k ≠ "endpoint" → k ≠ "apikey" → k ≠ "secretapikey" →
      dictLookup (authenticate_data e a s data) k = dictLookup data k := by
  rw [authenticate_data_eq_append]
  refine ⟨rfl, rfl, rfl, ?_⟩
  intro k hk1 hk2 hk3
  unfold dictLookup
  congr 1
  have hauth : (([("endpoint", e), ("apikey", a), ("secretapikey", s)] :
      List (String × String)).find? (fun kv => kv.1 == k)) = none := by
    apply List.find?_eq_none.mpr
    intro kv hkv hcon
    have hkk : kv.1 = k := by simpa using hcon
    simp only [List.mem_cons, List.mem_singleton] at hkv
    rcases hkv with h' | h' | h' | h'
    · exact hk1 (by rw [← hkk, h'])
    · exact hk2 (by rw [← hkk, h'])
    · exact hk3 (by rw [← hkk, h'])
    · exact absurd h' (by simp)
  rw [List.find?_append, hauth, Option.none_or]
  apply find?_filter_of_imp
  intro kv hq
  have hkk : kv.1 = k := by simpa using hq
  have hfalse : hasKey [("endpoint", e), ("apikey", a), ("secretapikey", s)] kv.1 = false := by
    unfold hasKey
    apply List.any_eq_false.mpr
    intro x hx hcon
    have hxk : x.1 = kv.1 := by simpa using hcon
    simp only [List.mem_cons, List.mem_singleton] at hx
    rcases hx with h' | h' | h' | h'
    · exact hk1 (by rw [← hkk, ← hxk, h'])
    · exact hk2 (by rw [← hkk, ← hxk, h'])
    · exact hk3 (by rw [← hkk, ← hxk, h'])
    · exact absurd h' (by simp)
  simp [hfalse]

/-- C6 witness: with concrete credentials and a payload that tries to
smuggle its own apikey, the configured credential wins and the other
payload key survives. -/
theorem authenticate_merge_precedence_witness :
    dictLookup (authenticate_data "EP" "AK" "SK" [("apikey", "evil"), ("content", "x")])
      "apikey" = some "AK" ∧
    dictLookup (authenticate_data "EP" "AK" "SK" [("apikey", "evil"), ("content", "x")])
      "content" = some "x" :=
  ⟨(authenticate_merge_precedence "EP" "AK" "SK" [("apikey", "evil"), ("content", "x")]).2.1,
   ((authenticate_merge_precedence "EP" "AK" "SK" [("apikey", "evil"), ("content", "x")]).2.2.2
      "content" (by decide) (by decide) (by decide)).trans (by decide)⟩

/- `Porkbun.get_ssl` authenticates its (empty) payload explicitly and then
   `api_raw` authenticates it again; this is the payload reaching the wire. -/
def get_ssl_payload (e a s : String) : List (String × String) :=
  authenticate_data e a s (authenticate_data e a s [])

/-- C10: authenticating a payload is idempotent — re-applying the
authentication merge to an already-authenticated payload returns the same
mapping, so get_ssl's double authentication produces the same wire payload
as the single authentication performed by api_raw alone. -/
theorem authenticate_data_idempotent (e a s : String) (d : List (String × String)) :
    authenticate_data e a s (authenticate_data e a s d) = authenticate_data e a s d ∧
    get_ssl_payload e a s = authenticate_data e a s [] := by
  have main : ∀ d0 : List (String × String),
      authenticate_data e a s (authenticate_data e a s d0) = authenticate_data e a s d0 := by
    intro d0
    rw [authenticate_data_eq_append e a s (authenticate_data e a s d0),
        authenticate_data_eq_append e a s d0]
    rw [List.filter_append]
    have e1 : ([("endpoint", e), ("apikey", a), ("secretapikey", s)] :
        List (String × String)).filter
        (fun kv => !(hasKey [("endpoint", e), ("apikey", a), ("secretapikey", s)] kv.1)) = [] := rfl
    rw [e1]
    have e2 : ((d0.filter (fun kv =>
        !(hasKey [("endpoint", e), ("apikey", a), ("secretapikey", s)] kv.1))).filter
        (fun kv => !(hasKey [("endpoint", e), ("apikey", a), ("secretapikey", s)] kv.1))) =
        d0.filter (fun kv =>
        !(hasKey [("endpoint", e), ("apikey", a), ("secretapikey", s)] kv.1)) :=
      List.filter_eq_self.mpr (fun kv hkv => (List.mem_filter.mp hkv).2)
    rw [e2, List.nil_append]
  exact ⟨main d, main []⟩

/- Payload built by `Porkbun.create_record`: the dict of name/type/content/
   ttl/prio with the entries whose value is None removed. -/
def create_payload (name : String) (type_ : String) (content : String)
    (ttl : Option String) (prio : Option String) : List (String × String) :=
  ([("name", some name), ("type", some type_), ("content", some content),
    ("ttl", ttl), ("prio", prio)]).filterMap
    (fun kv => kv.2.map (fun v => (kv.1, v)))

/-- C9: an optional field left unset is omitted from the outbound payload:
with prio unset the authenticated serialized payload of create_record has
no "prio" key at all, and with ttl unset it has no "ttl" key at all. -/
theorem create_record_omits_unset_optionals (e a s name type_ content : String)
    (ttl prio : Option String) :
    hasKey (authenticate_data e a s (create_payload name type_ content ttl none)) "prio" = false ∧
    hasKey (authenticate_data e a s (create_payload name type_ content none prio)) "ttl" = false := by
  constructor
  · rw [authenticate_data_eq_append]
    unfold hasKey
    rw [List.any_append]
    have h2 : (create_payload name type_ content ttl none).any
        (fun kv => kv.1 == "prio") = false := by
      cases ttl <;> rfl
    rw [any_filter_eq_false _ _ _ h2]
    rfl
  · rw [authenticate_data_eq_append]
    unfold hasKey
    rw [List.any_append]
    have h2 : (create_payload name type_ content none prio).any
        (fun kv => kv.1 == "ttl") = false := by
      cases prio <;> rfl
    rw [any_filter_eq_false _ _ _ h2]
    rfl

/- A DNS record as returned by the retrieve endpoint; only the fields the
   reconciliation code reads are kept. -/
structure RecordJson where
  id : String
  name : String
  type_ : String
  content : String
  deriving DecidableEq

/- A decoded non-retrieve API response; the code only inspects `status`. -/
structure ApiResp where
  status : String
  deriving DecidableEq

/- Decoded response of `/dns/retrieve/{domain}`. -/
structure RetrieveResp where
  status : String
  records : List RecordJson
  deriving DecidableEq

/- `_err` raises SystemExit; the distinct abort situations of the code. -/
inductive PbError where
  | httpFail
  | registrarError
  deriving DecidableEq

/- One outbound API call, with the data that reaches the wire. -/
inductive ApiCall where
  | retrieve (domain : String)
  | create (domain : String) (data : List (String × String))
  | delete (domain : String) (id : String)
  deriving DecidableEq

def ApiCall.isDelete : ApiCall → Bool
  | ApiCall.delete _ _ => true
  | _ => false

def ApiCall.isCreate : ApiCall → Bool
  | ApiCall.create _ _ => true
  | _ => false

/- The registrar's behavior during one reconciliation: the decoded outcome
   of the retrieve endpoint for the queried domain, of the delete endpoint
   per record id, and of the create endpoint. `Except.error` covers the
   transport failures on which `Porkbun.api` calls `_err` (non-200 status,
   body not a JSON object). -/
structure Env where
  retrieve : Except PbError RetrieveResp
  delete : String → Except PbError ApiResp
  create : Except PbError ApiResp

/- `Porkbun.get_records`: retrieve the record list, `_err` on a decoded
   response whose status field is "ERROR". Returns the calls made plus
   the outcome. -/
def get_records (env : Env) (domain : String) :
    List ApiCall × Except PbError RetrieveResp :=
  ([ApiCall.retrieve domain],
   match env.retrieve with
   | Except.error e => Except.error e
   | Except.ok r =>
     if r.status = "ERROR" then Except.error PbError.registrarError else Except.ok r)

/- `Porkbun.create_record`: build the payload with unset optionals dropped
   and post it to the create endpoint. -/
def create_record (env : Env) (domain : String) (name : String) (type_ : String)
    (content : String) (ttl : Option String) (prio : Option String) :
    List ApiCall × Except PbError ApiResp :=
  ([ApiCall.create domain (create_payload name type_ content ttl prio)], env.create)

/- `Porkbun.delete_record`: post to the delete endpoint for one id. -/
def delete_record (env : Env) (domain : String) (id : String) :
    List ApiCall × Except PbError ApiResp :=
  ([ApiCall.delete domain id], env.delete id)

/- The record the `update_record` scan would delete: the first record of
   the (successfully) listed set whose name equals the FQDN and whose type
   equals the target type. -/
def first_match (env : Env) (fqdn : String) (ty : String) : Option RecordJson :=
  match env.retrieve with
  | Except.error _ => none
  | Except.ok resp =>
    if resp.status = "ERROR" then none
    else resp.records.find? (fun r0 => r0.name == fqdn && r0.type_ == ty)

/- `Porkbun.update_record`: lowercase domain and name, uppercase the type,
   derive the FQDN, list the records, delete the first record matching
   (FQDN, type) and stop scanning, then create the new record; `_err` at
   any step aborts the remaining steps. The Python function accumulates
   the sub-responses in `responses` and returns `tuple(responses)`, so the
   result is the list of the responses that were actually produced. -/
def update_record (env : Env) (domain : String) (name : String) (type_ : String)
    (content : String) (ttl : Option String) (prio : Option String) :
    List ApiCall × Except PbError (List ApiResp) :=
  let dm := pyLower domain
  let nm := pyLower name
  let ty := pyUpper type_
  let fqdn := get_fqdn nm dm
  match (get_records env dm).2 with
  | Except.error e => ([ApiCall.retrieve dm], Except.error e)
  | Except.ok resp =>
    match resp.records.find? (fun r0 => r0.name == fqdn && r0.type_ == ty) with
    | none =>
      ([ApiCall.retrieve dm, ApiCall.create dm (create_payload nm ty content ttl prio)],
       (env.create).map (fun cr => [cr]))
    | some r0 =>
      match env.delete r0.id with
      | Except.error e => ([ApiCall.retrieve dm, ApiCall.delete dm r0.id], Except.error e)
      | Except.ok dr =>
        ([ApiCall.retrieve dm, ApiCall.delete dm r0.id,
          ApiCall.create dm (create_payload nm ty content ttl prio)],
         (env.create).map (fun cr => [dr, cr]))

/- The IP value handed to the A/AAAA helpers (`ipaddress.ip_address`):
   only its version and exploded text are read. -/
inductive IpAddr where
  | v4 (exploded : String)
  | v6 (exploded : String)
  deriving DecidableEq

def IpAddr.version : IpAddr → Nat
  | IpAddr.v4 _ => 4
  | IpAddr.v6 _ => 6

def IpAddr.exploded : IpAddr → String
  | IpAddr.v4 s => s
  | IpAddr.v6 s => s

/- `type_ = 'A' if ip.version == 4 else 'AAAA'` in the A/AAAA helpers. -/
def family_type (ip : IpAddr) : String :=
  if ip.version == 4 then "A" else "AAAA"

/- `subdomain = '' if subdomain is None else subdomain.lower()` in the
   A/AAAA helpers. -/
def sub_label (subdomain : Option String) : String :=
  match subdomain with
  | none => ""
  | some s => pyLower s

/- The scan loop of `Porkbun.delete_a_aaaa_record`: delete every record
   whose name equals the FQDN and whose type is the family type, ALIAS or
   CNAME; a failing delete aborts the loop. -/
def delete_matching_loop (env : Env) (domain : String) (fqdn : String) (ty : String) :
    List RecordJson → List ApiCall × Except PbError Unit
  | [] => ([], Except.ok ())
  | r0 :: rest =>
    if r0.name == fqdn && (r0.type_ == ty || r0.type_ == "ALIAS" || r0.type_ == "CNAME") then
      match env.delete r0.id with
      | Except.error e => ([ApiCall.delete domain r0.id], Except.error e)
      | Except.ok _ =>
        let out := delete_matching_loop env domain fqdn ty rest
        (ApiCall.delete domain r0.id :: out.1, out.2)
    else delete_matching_loop env domain fqdn ty rest

/- `Porkbun.delete_a_aaaa_record`: lowercase domain and subdomain, pick the
   family type from the IP version, derive the FQDN, list the records and
   run the deletion scan. -/
def delete_a_aaaa_record (env : Env) (domain : String) (ip : IpAddr)
    (subdomain : Option String) : List ApiCall × Except PbError Unit :=
  let dm := pyLower domain
  let fqdn := get_fqdn (sub_label subdomain) dm
  match (get_records env dm).2 with
  | Except.error e => ([ApiCall.retrieve dm], Except.error e)
  | Except.ok resp =>
    let out := delete_matching_loop env dm fqdn (family_type ip) resp.records
    (ApiCall.retrieve dm :: out.1, out.2)

/- `Porkbun.create_a_aaaa_record`: create the family-typed record with the
   exploded address as content and a fixed ttl of 300. -/
def create_a_aaaa_record (env : Env) (domain : String) (ip : IpAddr)
    (subdomain : Option String) : List ApiCall × Except PbError ApiResp :=
  create_record env (pyLower domain) (sub_label subdomain) (family_type ip)
    ip.exploded (some "300") none

/- `Porkbun.update_a_aaaa_record`: run the conflict purge, then create the
   replacement record; a purge failure aborts before any create. -/
def update_a_aaaa_record (env : Env) (domain : String) (ip : IpAddr)
    (subdomain : Option String) : List ApiCall × Except PbError ApiResp :=
  let del := delete_a_aaaa_record env domain ip subdomain
  match del.2 with
  | Except.error e => (del.1, Except.error e)
  | Except.ok _ =>
    let c2 := create_a_aaaa_record env domain ip subdomain
    (del.1 ++ c2.1, c2.2)

theorem get_records_snd (env : Env) (domain : String) :
    (get_records env domain).2 =
      match env.retrieve with
      | Except.error e => Except.error e
      | Except.ok r =>
        if r.status = "ERROR" then Except.error PbError.registrarError
        else Except.ok r := rfl

/-- C8: update_record scans the listed records in registrar-returned
order and issues a delete only for the first record matching the target
(FQDN, type) identity, then stops scanning — the call trace holds exactly
the delete of the first match when one exists, and in every case at most
one delete is issued, even when several stale records match. -/
theorem update_record_at_most_one_delete (env : Env) (domain : String) (name : String)
    (type_ : String) (content : String) (ttl prio : Option String) :
    ((update_record env domain name type_ content ttl prio).1.filter ApiCall.isDelete) =
      (match first_match env (get_fqdn (pyLower name) (pyLower domain)) (pyUpper type_) with
       | none => []
       | some r0 => [ApiCall.delete (pyLower domain) r0.id]) ∧
    ((update_record env domain name type_ content ttl prio).1.filter ApiCall.isDelete).length ≤ 1 := by
  have key : ((update_record env domain name type_ content ttl prio).1.filter ApiCall.isDelete) =
      (match first_match env (get_fqdn (pyLower name) (pyLower domain)) (pyUpper type_) with
       | none => []
       | some r0 => [ApiCall.delete (pyLower domain) r0.id]) := by
    cases henv : env.retrieve with
    | error e => simp [update_record, first_match, get_records_snd, henv, ApiCall.isDelete]
    | ok resp =>
      by_cases hst : resp.status = "ERROR"
      · simp [update_record, first_match, get_records_snd, henv, hst, ApiCall.isDelete]
      · cases hfind : resp.records.find?
            (fun r0 => r0.name == get_fqdn (pyLower name) (pyLower domain) &&
              r0.type_ == pyUpper type_) with
        | none =>
          simp [update_record, first_match, get_records_snd, henv, hst, hfind, ApiCall.isDelete]
        | some r0 =>
          cases hdel : env.delete r0.id with
          | error e =>
            simp [update_record, first_match, get_records_snd, henv, hst, hfind, hdel,
              ApiCall.isDelete]
          | ok dr =>
            simp [update_record, first_match, get_records_snd, henv, hst, hfind, hdel,
              ApiCall.isDelete]
  refine ⟨key, ?_⟩
  rw [key]
  cases first_match env (get_fqdn (pyLower name) (pyLower domain)) (pyUpper type_) <;> simp

/-- C7 (amended): a well-formed retrieve response whose status is "ERROR"
makes get_records fail with the registrar error and makes update_record
abort with no delete and no create call attempted; and when the delete
step of the upsert fails at the transport level (a non-200 response or an
undecodable body, on which `_err` aborts), the create step is never
attempted — but a delete response that decodes successfully is not
inspected at all, its status field included, so even when that status is
"ERROR" the create step is still attempted and both responses are
returned. -/
theorem error_aborts_remaining_steps (env : Env) (domain : String) (name : String)
    (type_ : String) (content : String) (ttl prio : Option String) :
    (∀ resp : RetrieveResp, env.retrieve = Except.ok resp → resp.status = "ERROR" →
      (get_records env (pyLower domain)).2 = Except.error PbError.registrarError ∧
      (update_record env domain name type_ content ttl prio).1.filter
        (fun k => k.isDelete || k.isCreate) = [] ∧
      (update_record env domain name type_ content ttl prio).2 =
        Except.error PbError.registrarError) ∧
    (∀ (r0 : RecordJson) (e : PbError),
      first_match env (get_fqdn (pyLower name) (pyLower domain)) (pyUpper type_) = some r0 →
      env.delete r0.id = Except.error e →
      (update_record env domain name type_ content ttl prio).1.filter ApiCall.isCreate = [] ∧
      (update_record env domain name type_ content ttl prio).2 = Except.error e) ∧
    (∀ (r0 : RecordJson) (dr : ApiResp),
      first_match env (get_fqdn (pyLower name) (pyLower domain)) (pyUpper type_) = some r0 →
      env.delete r0.id = Except.ok dr →
      ApiCall.create (pyLower domain)
          (create_payload (pyLower name) (pyUpper type_) content ttl prio) ∈
        (update_record env domain name type_ content ttl prio).1 ∧
      (update_record env domain name type_ content ttl prio).2 =
        (env.create).map (fun cr => [dr, cr])) := by
  refine ⟨?_, ?_, ?_⟩
  · intro resp hresp hst
    refine ⟨by simp [get_records_snd, hresp, hst], ?_, ?_⟩
    · simp [update_record, get_records_snd, hresp, hst, ApiCall.isDelete, ApiCall.isCreate]
    · simp [update_record, get_records_snd, hresp, hst]
  · intro r0 e hfm hdel
    cases henv : env.retrieve with
    | error e2 => simp [first_match, henv] at hfm
    | ok resp =>
      by_cases hst : resp.status = "ERROR"
      · simp [first_match, henv, hst] at hfm
      · have hfind : resp.records.find?
            (fun r1 => r1.name == get_fqdn (pyLower name) (pyLower domain) &&
              r1.type_ == pyUpper type_) = some r0 := by
          simpa [first_match, henv, hst] using hfm
        refine ⟨?_, ?_⟩
        · simp [update_record, get_records_snd, henv, hst, hfind, hdel, ApiCall.isCreate,
            ApiCall.isDelete]
        · simp [update_record, get_records_snd, henv, hst, hfind, hdel]
  · intro r0 dr hfm hdel
    cases henv : env.retrieve with
    | error e2 => simp [first_match, henv] at hfm
    | ok resp =>
      by_cases hst : resp.status = "ERROR"
      · simp [first_match, henv, hst] at hfm
      · have hfind : resp.records.find?
            (fun r1 => r1.name == get_fqdn (pyLower name) (pyLower domain) &&
              r1.type_ == pyUpper type_) = some r0 := by
          simpa [first_match, henv, hst] using hfm
        refine ⟨?_, ?_⟩
        · simp [update_record, get_records_snd, henv, hst, hfind, hdel]
        · simp [update_record, get_records_snd, henv, hst, hfind, hdel]

/- A registrar that reports "ERROR" on retrieve. -/
def envRegErr : Env :=
  ⟨Except.ok ⟨"ERROR", []⟩, fun _ => Except.ok ⟨"SUCCESS"⟩, Except.ok ⟨"SUCCESS"⟩⟩

/- A registrar with one matching record whose delete endpoint fails at the
   transport level. -/
def envDelFail : Env :=
  ⟨Except.ok ⟨"SUCCESS", [⟨"id1", "www.example.com", "A", "1.2.3.4"⟩]⟩,
   fun _ => Except.error PbError.httpFail, Except.ok ⟨"SUCCESS"⟩⟩

/- A registrar with one matching record whose delete endpoint answers
   HTTP 200 with a decoded status of "ERROR". -/
def envDelRegErr : Env :=
  ⟨Except.ok ⟨"SUCCESS", [⟨"id1", "www.example.com", "A", "1.2.3.4"⟩]⟩,
   fun _ => Except.ok ⟨"ERROR"⟩, Except.ok ⟨"SUCCESS"⟩⟩

/-- C7 counterexample: a delete step that fails at the registrar level —
the delete endpoint answers 200 with a well-formed body whose status is
"ERROR" — is followed by the create call anyway: delete_record never
inspects the status field, so the upsert issues the create and returns
the "ERROR" delete response next to the create response, refuting the
claim that a failed delete is never followed by a create. -/
theorem update_record_creates_after_error_delete :
    envDelRegErr.delete "id1" = Except.ok (ApiResp.mk "ERROR") ∧
    (ApiCall.delete "example.com" "id1" ∈
      (update_record envDelRegErr "example.com" "www" "A" "5.6.7.8" none none).1) ∧
    (ApiCall.create "example.com" (create_payload "www" "A" "5.6.7.8" none none) ∈
      (update_record envDelRegErr "example.com" "www" "A" "5.6.7.8" none none).1) ∧
    (update_record envDelRegErr "example.com" "www" "A" "5.6.7.8" none none).2 =
      Except.ok [ApiResp.mk "ERROR", ApiResp.mk "SUCCESS"] :=
  ⟨rfl, by decide, by decide, rfl⟩

/-- C7 witness: on a concrete "ERROR" retrieve the upsert fails with the
registrar error; on a concrete transport-failing delete no create is
issued; and on a concrete delete answering with status "ERROR" the create
call is issued regardless. -/
theorem error_aborts_remaining_steps_witness :
    (update_record envRegErr "example.com" "www" "A" "5.6.7.8" none none).2 =
      Except.error PbError.registrarError ∧
    (update_record envDelFail "example.com" "www" "A" "5.6.7.8" none none).1.filter
      ApiCall.isCreate = [] ∧
    ApiCall.create "example.com" (create_payload "www" "A" "5.6.7.8" none none) ∈
      (update_record envDelRegErr "example.com" "www" "A" "5.6.7.8" none none).1 := by
  refine ⟨((error_aborts_remaining_steps envRegErr "example.com" "www" "A" "5.6.7.8"
      none none).1 ⟨"ERROR", []⟩ rfl rfl).2.2,
    ((error_aborts_remaining_steps envDelFail "example.com" "www" "A" "5.6.7.8"
      none none).2.1 ⟨"id1", "www.example.com", "A", "1.2.3.4"⟩ PbError.httpFail
      (by decide) rfl).1, ?_⟩
  have h := ((error_aborts_remaining_steps envDelRegErr "example.com" "www" "A" "5.6.7.8"
    none none).2.2 ⟨"id1", "www.example.com", "A", "1.2.3.4"⟩ (ApiResp.mk "ERROR")
    (by decide) rfl).1
  simpa using h

/- A store with no TXT record at the target FQDN (one unrelated apex A
   record) and a succeeding create endpoint. -/
def envAcme : Env :=
  ⟨Except.ok ⟨"SUCCESS", [⟨"id7", "example.com", "A", "1.2.3.4"⟩]⟩,
   fun _ => Except.ok ⟨"SUCCESS"⟩, Except.ok ⟨"SUCCESS"⟩⟩

/-- C3 (code bug, evaluated): against a store with no prior TXT record at
the target FQDN, update_record performs no delete and exactly one create
call carrying name, type, content and ttl — but `tuple(responses)` is then
the one-element tuple holding only the create response, so the returned
value has no deleted component at all and no second component for the
caller (certbot_auth.py reads `responses[1]` as the creation response, and
the declared return type is a pair). -/
theorem update_record_no_match_singleton :
    (update_record envAcme "example.com" "_acme-challenge" "TXT" "abc123" (some "120") none).1 =
      [ApiCall.retrieve "example.com",
       ApiCall.create "example.com"
         [("name", "_acme-challenge"), ("type", "TXT"), ("content", "abc123"),
          ("ttl", "120")]] ∧
    (update_record envAcme "example.com" "_acme-challenge" "TXT" "abc123" (some "120") none).2 =
      Except.ok [ApiResp.mk "SUCCESS"] ∧
    ([ApiResp.mk "SUCCESS"] : List ApiResp).get? 1 = none ∧
    ([ApiResp.mk "SUCCESS"] : List ApiResp).length = 1 :=
  ⟨by decide, rfl, rfl, rfl⟩

/- Existing CNAME and A records at the same FQDN, with every delete and
   create succeeding. -/
def recConflictCNAME : RecordJson := ⟨"id-cname", "host.example.com", "CNAME", "other.com"⟩

def recConflictA : RecordJson := ⟨"id-a", "host.example.com", "A", "1.2.3.4"⟩

def envConflict : Env :=
  ⟨Except.ok ⟨"SUCCESS", [recConflictCNAME, recConflictA]⟩,
   fun _ => Except.ok ⟨"SUCCESS"⟩, Except.ok ⟨"SUCCESS"⟩⟩

/-- C1 counterexample: upserting a new IPv6 address over an existing CNAME
record and an existing A record at the same FQDN deletes the CNAME and
creates the new AAAA record, but never deletes the A record — the deletion
scan matches only the new record's own family type (AAAA here) plus ALIAS
and CNAME, so the claim that every A, AAAA, ALIAS or CNAME record is
purged is false. -/
theorem update_a_aaaa_ipv6_keeps_A_record :
    (ApiCall.delete "example.com" "id-cname" ∈
      (update_a_aaaa_record envConflict "example.com"
        (IpAddr.v6 "2001:0db8:0000:0000:0000:0000:0000:0001") (some "host")).1) ∧
    ¬ (ApiCall.delete "example.com" "id-a" ∈
      (update_a_aaaa_record envConflict "example.com"
        (IpAddr.v6 "2001:0db8:0000:0000:0000:0000:0000:0001") (some "host")).1) ∧
    (ApiCall.create "example.com"
        (create_payload "host" "AAAA" "2001:0db8:0000:0000:0000:0000:0000:0001"
          (some "300") none) ∈
      (update_a_aaaa_record envConflict "example.com"
        (IpAddr.v6 "2001:0db8:0000:0000:0000:0000:0000:0001") (some "host")).1) := by decide

theorem delete_matching_loop_spec (env : Env) (dm : String) (fqdn : String) (ty : String)
    (records : List RecordJson)
    (hd : ∀ id, ∃ r1, env.delete id = Except.ok r1) :
    (delete_matching_loop env dm fqdn ty records).2 = Except.ok () ∧
    (∀ x ∈ (delete_matching_loop env dm fqdn ty records).1, x.isDelete = true) ∧
    (∀ r0 ∈ records,
      (r0.name == fqdn &&
        (r0.type_ == ty || r0.type_ == "ALIAS" || r0.type_ == "CNAME")) = true →
      ApiCall.delete dm r0.id ∈ (delete_matching_loop env dm fqdn ty records).1) := by
  induction records with
  | nil => exact ⟨rfl, by simp [delete_matching_loop], by simp⟩
  | cons r0 rest ih =>
    by_cases hc : (r0.name == fqdn &&
        (r0.type_ == ty || r0.type_ == "ALIAS" || r0.type_ == "CNAME")) = true
    · obtain ⟨r1, hr1⟩ := hd r0.id
      refine ⟨?_, ?_, ?_⟩
      · simp [delete_matching_loop, hc, hr1, ih.1]
      · intro x hx
        simp only [delete_matching_loop, hc, hr1, if_pos, List.mem_cons] at hx
        rcases hx with hx | hx
        · rw [hx]; rfl
        · exact ih.2.1 x (by simpa using hx)
      · intro r2 hr2 hc2
        simp only [List.mem_cons] at hr2
        rcases hr2 with hr2 | hr2
        · rw [hr2]
          simp [delete_matching_loop, hc, hr1]
        · have := ih.2.2 r2 hr2 hc2
          simp [delete_matching_loop, hc, hr1, this]
    · refine ⟨?_, ?_, ?_⟩
      · simpa [delete_matching_loop, hc] using ih.1
      · intro x hx
        exact ih.2.1 x (by simpa [delete_matching_loop, hc] using hx)
      · intro r2 hr2 hc2
        simp only [List.mem_cons] at hr2
        rcases hr2 with hr2 | hr2
        · rw [hr2] at hc2
          exact absurd hc2 hc
        · have := ih.2.2 r2 hr2 hc2
          simpa [delete_matching_loop, hc] using this

/-- C1 (amended): when the record list is retrieved successfully and every
delete succeeds, update_a_aaaa_record deletes every pre-existing record at
the target FQDN whose type equals the new record's address-family type
(A for an IPv4 target, AAAA for an IPv6 target) or is ALIAS or CNAME, and
its call trace is the retrieve, then delete calls only, then the single
create of the new record — so every purge deletion precedes the create. -/
theorem update_a_aaaa_purges_family_conflicts (env : Env) (domain : String)
    (ip : IpAddr) (subdomain : Option String) (resp : RetrieveResp)
    (hr : env.retrieve = Except.ok resp) (hs : resp.status ≠ "ERROR")
    (hd : ∀ id, ∃ r1, env.delete id = Except.ok r1) :
    (∀ r0 ∈ resp.records,
      r0.name = get_fqdn (sub_label subdomain) (pyLower domain) →
      (r0.type_ = family_type ip ∨ r0.type_ = "ALIAS" ∨ r0.type_ = "CNAME") →
      ApiCall.delete (pyLower domain) r0.id ∈
        (update_a_aaaa_record env domain ip subdomain).1) ∧
    (∃ ds : List ApiCall,
      (update_a_aaaa_record env domain ip subdomain).1 =
        ApiCall.retrieve (pyLower domain) :: ds ++
          [ApiCall.create (pyLower domain)
            (create_payload (sub_label subdomain) (family_type ip)
              ip.exploded (some "300") none)] ∧
      ∀ x ∈ ds, x.isDelete = true) := by
  have hloop := delete_matching_loop_spec env (pyLower domain)
    (get_fqdn (sub_label subdomain) (pyLower domain)) (family_type ip) resp.records hd
  have htrace : (update_a_aaaa_record env domain ip subdomain).1 =
      ApiCall.retrieve (pyLower domain) ::
        (delete_matching_loop env (pyLower domain)
          (get_fqdn (sub_label subdomain) (pyLower domain))
          (family_type ip) resp.records).1 ++
        [ApiCall.create (pyLower domain)
          (create_payload (sub_label subdomain) (family_type ip)
            ip.exploded (some "300") none)] := by
    simp [update_a_aaaa_record, delete_a_aaaa_record, create_a_aaaa_record, create_record,
      get_records_snd, hr, hs, hloop.1]
  constructor
  · intro r0 hr0 hname hty
    rw [htrace]
    have hc : (r0.name == get_fqdn (sub_label subdomain) (pyLower domain) &&
        (r0.type_ == family_type ip ||
          r0.type_ == "ALIAS" || r0.type_ == "CNAME")) = true := by
      rcases hty with h' | h' | h' <;> simp [hname, h']
    have := hloop.2.2 r0 hr0 hc
    simp [List.mem_cons, List.mem_append, this]
  · refine ⟨(delete_matching_loop env (pyLower domain)
      (get_fqdn (sub_label subdomain) (pyLower domain))
      (family_type ip) resp.records).1, htrace, hloop.2.1⟩

/-- C1 witness: the amended purge applied to the concrete conflicting
store — the CNAME record (a conflicting type for the new AAAA record) is
deleted by the upsert. -/
theorem update_a_aaaa_purges_family_conflicts_witness :
    ApiCall.delete "example.com" "id-cname" ∈
      (update_a_aaaa_record envConflict "example.com"
        (IpAddr.v6 "2001:0db8:0000:0000:0000:0000:0000:0001") (some "host")).1 := by
  have h := (update_a_aaaa_purges_family_conflicts envConflict "example.com"
    (IpAddr.v6 "2001:0db8:0000:0000:0000:0000:0000:0001") (some "host")
    ⟨"SUCCESS", [recConflictCNAME, recConflictA]⟩ rfl (by decide)
    (fun id => ⟨⟨"SUCCESS"⟩, rfl⟩)).1 recConflictCNAME (by decide) (by decide)
    (Or.inr (Or.inr rfl))
  simpa using h

/- Errors raised by the Python runtime inside search_records. -/
inductive PyError where
  | valueError
  | keyError
  deriving DecidableEq

/- `key, value = s` for a string s: tuple-unpacking a string binds its
   characters and needs exactly two of them, otherwise ValueError. -/
def unpack2 (s : String) : Except PyError (Char × Char) :=
  match s.data with
  | [a, b] => Except.ok (a, b)
  | _ => Except.error PyError.valueError

/- The query dict of `Porkbun.search_records`: the six fixed keys in
   insertion order with the None-valued entries removed. -/
def search_query (name : Option String) (type_ : Option String)
    (content : Option String) (ttl : Option String) (prio : Option String)
    (notes : Option String) : List (String × String) :=
  ([("name", name), ("type", type_), ("content", content),
    ("ttl", ttl), ("prio", prio), ("notes", notes)]).filterMap
    (fun kv => kv.2.map (fun v => (kv.1, v)))

/- The inner loop of `Porkbun.search_records` for one record:
   `for key, value in query` iterates the query dict, which yields its
   bare key strings, and unpacks each key string into the two loop
   variables; when that succeeds the loop skips the record on a missing
   key or on `record['key'] != value` (a literal 'key' lookup) and
   otherwise appends the record. -/
def search_inner (record : List (String × String)) :
    List (String × String) → Except PyError (List (List (String × String)))
  | [] => Except.ok []
  | q :: qrest =>
    match unpack2 q.1 with
    | Except.error e => Except.error e
    | Except.ok (ka, va) =>
      if !(hasKey record (String.mk [ka])) then search_inner record qrest
      else
        match dictLookup record "key" with
        | none => Except.error PyError.keyError
        | some v =>
          if v != String.mk [va] then search_inner record qrest
          else (search_inner record qrest).map (fun ms => record :: ms)

/- The outer loop of `Porkbun.search_records` over the given records,
   accumulating `matching_records`. -/
def search_loop (query : List (String × String)) :
    List (List (String × String)) → Except PyError (List (List (String × String)))
  | [] => Except.ok []
  | r0 :: rest =>
    match search_inner r0 query with
    | Except.error e => Except.error e
    | Except.ok ms =>
      match search_loop query rest with
      | Except.error e => Except.error e
      | Except.ok ms2 => Except.ok (ms ++ ms2)

/- `Porkbun.search_records` when called with an explicit records argument
   (no retrieve call is made in that case). -/
def search_records_with (records : List (List (String × String)))
    (name : Option String) (type_ : Option String) (content : Option String)
    (ttl : Option String) (prio : Option String) (notes : Option String) :
    Except PyError (List (List (String × String))) :=
  search_loop (search_query name type_ content ttl prio notes) records

/-- C4 (code bug, evaluated): called with an explicit records argument and
a name/type filter, search_records is not a total exact filter — the
matching loop iterates `for key, value in query` over the query dict,
which yields bare key strings, and tuple-unpacking the four-character key
"name" raises ValueError before any comparison happens (were it to
proceed, it would look up the literal key 'key' in the record). On a
record that matches the filter exactly, the call fails instead of
returning the match; it returns an empty result only when the record list
or the filter is empty. -/
theorem search_records_filter_raises :
    search_records_with
      [[("id", "id1"), ("name", "www.example.com"), ("type", "A"),
        ("content", "1.2.3.4")]]
      (some "www.example.com") (some "A") none none none none =
      Except.error PyError.valueError ∧
    search_records_with [] (some "www.example.com") (some "A") none none none none =
      Except.ok [] ∧
    search_records_with [[("name", "www.example.com"), ("type", "A")]]
      none none none none none none = Except.ok [] :=
  ⟨rfl, rfl, rfl⟩

/- Configuration loading. -/
inductive ConfigError where
  | missingRequired (required : List String)
  deriving DecidableEq

/- The required configuration keys, computed in the source by inspecting
   `Porkbun.__init__`'s signature: the parameters without a default value
   are api_key and secret_api_key (endpoint has a default). -/
def config_required : List String := ["api_key", "secret_api_key"]

/- `get_config` from src/porkbun.py: `_err` listing the required keys when
   one is absent; then `tmp = {}; tmp.setdefault('endpoint', DEF_ENDPOINT);
   config.update(tmp)` — the temporary dict always holds the default
   endpoint, and `update` writes it into the config unconditionally. -/
def get_config (config : List (String × String)) :
    Except ConfigError (List (String × String)) :=
  if config_required.any (fun e => !(hasKey config e)) then
    Except.error (ConfigError.missingRequired config_required)
  else
    Except.ok (dictUpdate config [("endpoint", DEF_ENDPOINT)])

/-- C5 (code bug, evaluated): get_config does require api_key and
secret_api_key and fails with an error carrying the required-field list
when one is missing, and a configuration omitting endpoint does get the
production default — but a configuration that supplies its own endpoint
does not keep it: the update with the temporary
`{'endpoint': DEF_ENDPOINT}` dict overwrites the supplied value with the
default unconditionally. -/
theorem get_config_endpoint_overwritten :
    get_config [("api_key", "k"), ("secret_api_key", "s"),
        ("endpoint", "https://custom.example")] =
      Except.ok [("api_key", "k"), ("secret_api_key", "s"), ("endpoint", DEF_ENDPOINT)] ∧
    DEF_ENDPOINT ≠ "https://custom.example" ∧
    get_config [("api_key", "k")] =
      Except.error (ConfigError.missingRequired ["api_key", "secret_api_key"]) ∧
    get_config [("api_key", "k"), ("secret_api_key", "s")] =
      Except.ok [("api_key", "k"), ("secret_api_key", "s"), ("endpoint", DEF_ENDPOINT)] :=
  ⟨rfl, by decide, rfl, rfl⟩
